import Mathlib

/-!
# The Search container (`src/containers/search.js`)

A shallow embedding of the `Search` component: the pagination arithmetic
(lines 73-83), the query function handed to `useQuery` (lines 26-49), the
debounce effect (lines 51-59), the input handler (lines 61-67) and the
render (lines 69-129).

JavaScript numbers are embedded exactly: `NaN`, the integers and the two
infinities (`JSNum`), and in addition the finite numbers that are not
integers, as rationals, where a coercion can produce them (`JSReal`).
Integer arithmetic on doubles is exact below `2 ^ 53`, which is where counts
and page numbers live, and `Math.ceil (x / 10)` on such an integer is the
ceiling of the exact quotient.
-/

namespace Search

/-! ## JavaScript values -/

/-- A JavaScript number that is `NaN`, an integer or an infinity (`inf true`
is `-Infinity`): the values the page, `totalPages` and `startIndex` take. -/
inductive JSNum where
  | nan
  | fin (n : Int)
  | inf (negative : Bool)
  deriving DecidableEq, Repr

namespace JSNum

/-- The binary `+`. -/
def add : JSNum → JSNum → JSNum
  | fin a, fin b => fin (a + b)
  | fin _, inf s => inf s
  | inf s, fin _ => inf s
  | inf s, inf t => if s = t then inf s else nan
  | _, _ => nan

/-- The binary `-`. -/
def sub : JSNum → JSNum → JSNum
  | fin a, fin b => fin (a - b)
  | fin _, inf s => inf (!s)
  | inf s, fin _ => inf s
  | inf s, inf t => if s = t then nan else inf s
  | _, _ => nan

/-- The binary `*`. -/
def mul : JSNum → JSNum → JSNum
  | fin a, fin b => fin (a * b)
  | fin a, inf s => if a = 0 then nan else inf (xor (decide (a < 0)) s)
  | inf s, fin b => if b = 0 then nan else inf (xor s (decide (b < 0)))
  | inf s, inf t => inf (xor s t)
  | _, _ => nan

/-- The ceiling of the quotient of an integer by ten. -/
def ceilDiv10 (n : Int) : Int := -((-n) / 10)

/-- The call `Math.min(a, b)`: `NaN` as soon as one argument is `NaN`. -/
def min : JSNum → JSNum → JSNum
  | fin a, fin b => fin (Min.min a b)
  | fin a, inf s => if s then inf true else fin a
  | inf s, fin b => if s then inf true else fin b
  | inf s, inf t => inf (s || t)
  | _, _ => nan

/-- The call `Math.max(a, b)`: `NaN` as soon as one argument is `NaN`. -/
def max : JSNum → JSNum → JSNum
  | fin a, fin b => fin (Max.max a b)
  | fin a, inf s => if s then fin a else inf false
  | inf s, fin b => if s then fin b else inf false
  | inf s, inf t => inf (s && t)
  | _, _ => nan

/-- The comparison `a < b`, false as soon as one side is `NaN`. -/
def lt : JSNum → JSNum → Bool
  | fin a, fin b => decide (a < b)
  | fin _, inf s => !s
  | inf s, fin _ => s
  | inf s, inf t => s && !t
  | _, _ => false

/-- The comparison `a <= b`, false as soon as one side is `NaN`. -/
def le : JSNum → JSNum → Bool
  | fin a, fin b => decide (a ≤ b)
  | fin _, inf s => !s
  | inf s, fin _ => s
  | inf s, inf t => s || !t
  | _, _ => false

end JSNum

/-- A JavaScript number in general, the result of a numeric coercion: `NaN`,
an integer, a finite number that is not an integer (as a rational), or an
infinity. -/
inductive JSReal where
  | nan
  | fin (n : Int)
  | frac (q : ℚ)
  | inf (negative : Bool)
  deriving DecidableEq, Repr

namespace JSReal

/-- A number of the integer kind, as a general number. -/
def ofNum : JSNum → JSReal
  | .nan => nan
  | .fin n => fin n
  | .inf s => inf s

/-- The expression `Math.ceil(x / 10)`. -/
def ceilTenth : JSReal → JSNum
  | fin a => .fin (JSNum.ceilDiv10 a)
  | frac q => .fin ⌈q / 10⌉
  | inf s => .inf s
  | nan => .nan

/-- The order of two numbers neither of which is `NaN`. -/
def leq : JSReal → JSReal → Bool
  | nan, _ => false
  | _, nan => false
  | inf true, _ => true
  | _, inf false => true
  | inf false, _ => false
  | _, inf true => false
  | fin a, fin b => decide (a ≤ b)
  | fin a, frac q => decide ((a : ℚ) ≤ q)
  | frac q, fin b => decide (q ≤ (b : ℚ))
  | frac q, frac r => decide (q ≤ r)

/-- The call `Math.min(a, b)`: `NaN` as soon as one argument is `NaN`. -/
def min : JSReal → JSReal → JSReal
  | fin a, fin b => fin (Min.min a b)
  | nan, _ => nan
  | _, nan => nan
  | a, b => if leq a b then a else b

end JSReal

/-- The ECMAScript `WhiteSpace` and `LineTerminator` code points, the ones
`String.prototype.trim` removes. -/
def isJSWhiteSpace (c : Char) : Bool :=
  let n := c.toNat
  n = 0x09 || n = 0x0A || n = 0x0B || n = 0x0C || n = 0x0D || n = 0x20 ||
  n = 0xA0 || n = 0x1680 || (0x2000 ≤ n && n ≤ 0x200A) || n = 0x2028 ||
  n = 0x2029 || n = 0x202F || n = 0x205F || n = 0x3000 || n = 0xFEFF

/-- The method `String.prototype.trim`, on the list of characters. -/
def trimChars (cs : List Char) : List Char :=
  ((cs.dropWhile isJSWhiteSpace).reverse.dropWhile isJSWhiteSpace).reverse

/-- The method `String.prototype.trim`. -/
def jsTrim (s : String) : String := ⟨trimChars s.data⟩

/-! ### The numeric value of a string

The abstract operation `StringToNumber`: surrounding white space is dropped;
the empty string is zero; a decimal literal may carry a sign, a fraction and
an exponent, or be `Infinity`; an unsigned literal may be hexadecimal, octal
or binary; anything else is `NaN`.  Values are exact: no rounding, overflow
or underflow. -/

/-- The value of a digit in the given radix (letters count from ten). -/
def digitValue (radix : Nat) (c : Char) : Option Nat :=
  let n := c.toNat
  let v :=
    if 48 ≤ n ∧ n ≤ 57 then some (n - 48)
    else if 97 ≤ n ∧ n ≤ 102 then some (n - 87)
    else if 65 ≤ n ∧ n ≤ 70 then some (n - 55)
    else none
  match v with
  | some d => if d < radix then some d else none
  | none => none

/-- The value of a list of digits in the given radix, read after the prefix
`acc`; `none` when a character is not a digit of that radix. -/
def digitsValue (radix : Nat) : Nat → List Char → Option Nat
  | acc, [] => some acc
  | acc, c :: cs =>
    match digitValue radix c with
    | some d => digitsValue radix (acc * radix + d) cs
    | none => none

/-- The longest prefix of decimal digits, and what follows it. -/
def spanDigits : List Char → List Char × List Char
  | [] => ([], [])
  | c :: cs =>
    match digitValue 10 c with
    | some _ => ((c :: (spanDigits cs).1), (spanDigits cs).2)
    | none => ([], c :: cs)

/-- The value of a list of decimal digits. -/
def decimalValue (ds : List Char) : Nat :=
  ds.foldl (fun acc c => acc * 10 + (c.toNat - 48)) 0

/-- An optional sign: whether it is `-`, and what follows it. -/
def splitSign : List Char → Bool × List Char
  | '+' :: cs => (false, cs)
  | '-' :: cs => (true, cs)
  | cs => (false, cs)

/-- The optional `ExponentPart` that ends a decimal literal: its value, zero
when absent, `none` when what is there is not an exponent part. -/
def exponentValue : List Char → Option Int
  | [] => some 0
  | c :: cs =>
    if c = 'e' ∨ c = 'E' then
      let ds := spanDigits (splitSign cs).2
      if ds.1 ≠ [] ∧ ds.2 = [] then
        some (if (splitSign cs).1 then -(decimalValue ds.1 : Int) else (decimalValue ds.1 : Int))
      else none
    else none

/-- The number `± mantissa * 10 ^ exponent`. -/
def scaled (negative : Bool) (mantissa : Nat) (exponent : Int) : JSReal :=
  let m : Int := if negative then -(mantissa : Int) else (mantissa : Int)
  match exponent with
  | .ofNat e => .fin (m * 10 ^ e)
  | .negSucc e =>
    if mantissa % 10 ^ (e + 1) = 0 then
      .fin (if negative then -((mantissa / 10 ^ (e + 1) : Nat) : Int)
        else ((mantissa / 10 ^ (e + 1) : Nat) : Int))
    else .frac (mkRat m (10 ^ (e + 1)))

/-- The value of a `StrUnsignedDecimalLiteral` with the given sign:
`Infinity`, or digits with an optional fraction and an optional exponent, at
least one digit before the exponent. -/
def unsignedDecimalValue (negative : Bool) (cs : List Char) : JSReal :=
  if cs = ['I', 'n', 'f', 'i', 'n', 'i', 't', 'y'] then .inf negative
  else
    let ip := spanDigits cs
    let fp : List Char × List Char :=
      match ip.2 with
      | '.' :: rest => spanDigits rest
      | rest => ([], rest)
    if ip.1 = [] ∧ fp.1 = [] then .nan
    else
      match exponentValue fp.2 with
      | none => .nan
      | some e => scaled negative (decimalValue (ip.1 ++ fp.1)) (e - fp.1.length)

/-- The value of a non-empty list of digits in the given radix. -/
def radixValue (radix : Nat) : List Char → JSReal
  | [] => .nan
  | cs =>
    match digitsValue radix 0 cs with
    | some n => .fin n
    | none => .nan

/-- The operation `StringToNumber` on the characters of a string. -/
def stringToNumber (s : List Char) : JSReal :=
  match trimChars s with
  | [] => .fin 0
  | '0' :: 'x' :: cs => radixValue 16 cs
  | '0' :: 'X' :: cs => radixValue 16 cs
  | '0' :: 'o' :: cs => radixValue 8 cs
  | '0' :: 'O' :: cs => radixValue 8 cs
  | '0' :: 'b' :: cs => radixValue 2 cs
  | '0' :: 'B' :: cs => radixValue 2 cs
  | cs => unsignedDecimalValue (splitSign cs).1 (splitSign cs).2

/-- The state variable `total`: `null` (the initial value and the value an
input change writes), `undefined` (a response without `totalResults`), a
JSON number, or a JSON string. -/
inductive Total where
  | null
  | undefined
  | num (n : Nat)
  | str (s : String)
  deriving DecidableEq, Repr

/-- The numeric coercion `ToNumber` applied to `total` by `/` and by
`Math.min`. -/
def Total.toNumber : Total → JSReal
  | .null => .fin 0
  | .undefined => .nan
  | .num n => .fin n
  | .str s => stringToNumber s.data

/-! ## Pagination (lines 73-83) -/

/-- Line 73, `const totalPages = Math.ceil(total / 10)`. -/
def totalPages (total : Total) : JSNum :=
  JSReal.ceilTenth total.toNumber

/-- Line 74, `const startIndex = (page - 1) * 10 + 1`. -/
def startIndex (page : JSNum) : JSNum :=
  ((page.sub (.fin 1)).mul (.fin 10)).add (.fin 1)

/-- Line 75, `const endIndex = Math.min(startIndex + 9, total)`. -/
def endIndex (page : JSNum) (total : Total) : JSReal :=
  JSReal.min (JSReal.ofNum ((startIndex page).add (.fin 9))) total.toNumber

/-- Line 78, the updater `(prevPage) => Math.max(prevPage - 1, 1)`. -/
def handlePrevPageClick (prevPage : JSNum) : JSNum :=
  JSNum.max (prevPage.sub (.fin 1)) (.fin 1)

/-- Line 82, the updater `(prevPage) => Math.min(prevPage + 1, totalPages)`,
with `totalPages` the value computed by the render that built the handler. -/
def handleNextPageClick (total : Total) (prevPage : JSNum) : JSNum :=
  JSNum.min (prevPage.add (.fin 1)) (totalPages total)

/-! ## Responses and the query function (lines 26-49) -/

/-- A movie summary of the remote API, the element type of `Search`. -/
structure Movie where
  title : String
  year : String
  imdbID : String
  poster : String
  deriving DecidableEq, Repr

/-- The JSON values the field `Search` of a response body can hold, and
`undefined` for an absent field.  Of an object only its own keys matter to
the component. -/
inductive JSVal where
  | undefined
  | null
  | bool (b : Bool)
  | num (n : Int)
  | str (s : String)
  | arr (items : List Movie)
  | obj (keys : List String)
  deriving DecidableEq, Repr

namespace JSVal

/-- The boolean coercion `ToBoolean`, as applied by `data && ...`. -/
def truthy : JSVal → Bool
  | undefined => false
  | null => false
  | bool b => b
  | num n => decide (n ≠ 0)
  | str s => decide (s.data ≠ [])
  | arr _ => true
  | obj _ => true

/-- The number of UTF-16 code units of a list of characters. -/
def utf16Length : List Char → Nat
  | [] => 0
  | c :: cs => (if c.toNat < 0x10000 then 1 else 2) + utf16Length cs

/-- The expression `Object.keys(data).length` for a value other than
`undefined` and `null` (for which `Object.keys` throws, and which line 108
never passes to it): the indices of an array or of a string, the own keys of
an object, nothing for a number or a boolean. -/
def keysLength : JSVal → Nat
  | undefined => 0
  | null => 0
  | bool _ => 0
  | num _ => 0
  | str s => utf16Length s.data
  | arr items => items.length
  | obj keys => keys.length

end JSVal

/-- The body `res.data` of a successful response, with the two fields the
component reads. -/
structure ResponseBody where
  Search : JSVal
  totalResults : Total
  deriving DecidableEq, Repr

/-- How `axios.get` settles: resolved with a body (`none` when `res.data`
is `null` or `undefined`), or rejected. -/
inductive HttpResult where
  | resolved (data : Option ResponseBody)
  | rejected
  deriving DecidableEq, Repr

/-- The actions of `../reducers/searchReducer` the component dispatches. -/
inductive Action where
  | setMovieSearch (term : String)
  | setMovies (movies : JSVal)
  deriving DecidableEq, Repr

/-- What a JavaScript evaluation can throw here. -/
inductive JSError where
  | fetchError
  | typeError
  deriving DecidableEq, Repr

deriving instance DecidableEq for Except

/-- The template substitution of a number. -/
def JSNum.toJSString : JSNum → String
  | .nan => "NaN"
  | .fin n => toString n
  | .inf false => "Infinity"
  | .inf true => "-Infinity"

/-- Line 47, the option `enabled: debouncedSearchTerm.trim() !== ""`. -/
def enabled (debouncedSearchTerm : String) : Bool :=
  decide (jsTrim debouncedSearchTerm ≠ "")

/-- Line 33, the request URL. -/
def apiUrl (apiKey debouncedSearchTerm : String) (page : JSNum) : String :=
  "https://www.omdbapi.com/?apikey=" ++ apiKey ++ "&s=" ++ debouncedSearchTerm ++
    "&page=" ++ page.toJSString

/-- The query function up to its first suspension: it returns at once
(line 30), or issues the GET of line 36 and waits. -/
inductive QueryStart where
  | done (result : JSVal)
  | get (url : String)
  deriving DecidableEq, Repr

/-- Lines 29-36. -/
def queryFnStart (apiKey debouncedSearchTerm : String) (page : JSNum) : QueryStart :=
  if jsTrim debouncedSearchTerm = "" then .done (.obj [])
  else .get (apiUrl apiKey debouncedSearchTerm page)

/-- The effects and the outcome of the query function once `axios.get` has
settled. -/
structure Settled where
  dispatched : List Action
  totalSet : Option Total
  result : Except JSError JSVal
  deriving DecidableEq, Repr

/-- Lines 36-44: on a resolved GET, dispatch `setMovies`, call `setTotal`
and return the list; anything thrown inside `try` becomes the fetch error. -/
def queryFnResume : HttpResult → Settled
  | .resolved (some data) =>
    { dispatched := [.setMovies data.Search]
      totalSet := some data.totalResults
      result := .ok data.Search }
  | .resolved none => { dispatched := [], totalSet := none, result := .error .fetchError }
  | .rejected => { dispatched := [], totalSet := none, result := .error .fetchError }

/-- One complete run of the query function against a transport `http`. -/
structure QueryRun where
  requests : List String
  dispatched : List Action
  totalSet : Option Total
  result : Except JSError JSVal
  deriving DecidableEq, Repr

/-- Lines 28-45, the query function. -/
def queryFn (apiKey debouncedSearchTerm : String) (page : JSNum)
    (http : String → HttpResult) : QueryRun :=
  match queryFnStart apiKey debouncedSearchTerm page with
  | .done result => { requests := [], dispatched := [], totalSet := none, result := .ok result }
  | .get url =>
    let s := queryFnResume (http url)
    { requests := [url], dispatched := s.dispatched, totalSet := s.totalSet, result := s.result }

/-! ## Render (lines 69-129) -/

/-- The content of the overlay of the placeholder grid. -/
inductive Overlay where
  | spinner
  | noMoviesFound
  deriving DecidableEq, Repr

/-- A `MovieCard`, with its key and, for a result, its data. -/
inductive Tile where
  | card (key : Nat) (data : Movie)
  | placeholder (key : Nat)
  deriving DecidableEq, Repr

/-- The pager: the two buttons and the values its text interpolates. -/
structure Pager where
  page : JSNum
  startIndex : JSNum
  endIndex : JSReal
  total : Total
  deriving DecidableEq, Repr

/-- What follows the input field. -/
inductive Body where
  | results (tiles : List Tile) (pager : Pager)
  | placeholders (tiles : List Tile) (overlay : Overlay)
  deriving DecidableEq, Repr

/-- The element `Search` returns. -/
inductive View where
  | errorMessage
  | search (inputValue : String) (body : Body)
  deriving DecidableEq, Repr

/-- Lines 111-113, `data.map((d, i) => <MovieCard key={i} data={d} />)`,
from index `i` on. -/
def cards : Nat → List Movie → List Tile
  | _, [] => []
  | i, d :: ds => .card i d :: cards (i + 1) ds

/-- Lines 120-122, `Array.from({ length }, (_, index) => <MovieCard key={index} />)`. -/
def placeholderTiles (length : Nat) : List Tile :=
  (List.range length).map .placeholder

/-- Lines 85-97, `renderPager`. -/
def renderPager (page : JSNum) (total : Total) : Pager :=
  { page := page, startIndex := startIndex page, endIndex := endIndex page total, total := total }

/-- Lines 69-129: the early return on `isError`, then the input followed by
the result grid and the pager when `data && Object.keys(data).length > 0`,
by the placeholder grid otherwise.  The call `data.map` throws a `TypeError`
on a value that is not an array. -/
def render (isError isLoading : Bool) (data : JSVal) (searchTerm : String)
    (page : JSNum) (total : Total) : Except JSError View :=
  if isError then .ok .errorMessage
  else if data.truthy && decide (data.keysLength > 0) then
    match data with
    | .arr items => .ok (.search searchTerm (.results (cards 0 items) (renderPager page total)))
    | _ => .error .typeError
  else
    .ok (.search searchTerm
      (.placeholders (placeholderTiles 9) (if isLoading then .spinner else .noMoviesFound)))

/-! ## The component state and its events -/

/-- Modelled from the spec: the shared store behind `useSelector` and
`useDispatch`.  The slice `../reducers/searchReducer` is not among the
sources; the spec names it the shared store for the search term and the
movies, and line 24 reads `state.search.movies`. -/
structure Store where
  movieSearch : String
  movies : JSVal
  deriving DecidableEq, Repr

/-- Modelled from the spec: the reducer of `../reducers/searchReducer`,
which is not among the sources.  Each action replaces the field it names by
its payload. -/
def searchReducer (s : Store) : Action → Store
  | .setMovieSearch term => { s with movieSearch := term }
  | .setMovies movies => { s with movies := movies }

/-- The query key of line 27, `["movieData", page, debouncedSearchTerm]`. -/
structure QueryKey where
  page : JSNum
  term : String
  deriving DecidableEq, Repr

/-- The state `react-query` keeps for one key: fetching (with the number of
failed attempts so far), resolved with the value the query function returned,
or failed. -/
inductive QueryStatus where
  | loading (failureCount : Nat)
  | success (data : JSVal)
  | error
  deriving DecidableEq, Repr

/-- The state of a mounted `Search`: the four `useState` cells (lines
19-22), the shared store, the query cache and the GET requests issued so
far. -/
structure App where
  searchTerm : String
  debouncedSearchTerm : String
  page : JSNum
  total : Total
  store : Store
  queries : List (QueryKey × QueryStatus)
  requests : List String
  deriving DecidableEq, Repr

namespace App

/-- The state at mount (lines 19-22), over the store's initial state. -/
def init (store : Store) : App :=
  { searchTerm := "", debouncedSearchTerm := "", page := .fin 1, total := .null,
    store := store, queries := [], requests := [] }

/-- The key the component currently observes. -/
def queryKey (s : App) : QueryKey := ⟨s.page, s.debouncedSearchTerm⟩

/-- The cache entry of the observed key. -/
def status (s : App) : Option QueryStatus := s.queries.lookup s.queryKey

/-- The `data` of line 26. -/
def data (s : App) : JSVal :=
  match s.status with
  | some (.success d) => d
  | _ => .undefined

/-- The `isLoading` of line 26. -/
def isLoading (s : App) : Bool :=
  match s.status with
  | some (.loading _) => true
  | _ => false

/-- The `isError` of line 26. -/
def isError (s : App) : Bool :=
  match s.status with
  | some .error => true
  | _ => false

/-- What the component renders in this state. -/
def view (s : App) : Except JSError View :=
  render s.isError s.isLoading s.data s.searchTerm s.page s.total

/-- Whether the pager, hence its two buttons, is on screen. -/
def pagerShown (s : App) : Bool :=
  match s.view with
  | .ok (.search _ (.results _ _)) => true
  | _ => false

end App

/-- Line 64, `dispatch(setMovieSearch(searchTerm))`: the action carries the
`searchTerm` of the render that built the handler. -/
def inputChangeDispatch (s : App) : List Action :=
  [.setMovieSearch s.searchTerm]

/-- Lines 61-67, `handleInputChange`. -/
def handleInputChange (s : App) (value : String) : App :=
  { s with
    searchTerm := value
    store := (inputChangeDispatch s).foldl searchReducer s.store
    page := .fin 1
    total := .null }

/-- Replace the cache entry of `key`. -/
def setStatus (queries : List (QueryKey × QueryStatus)) (key : QueryKey)
    (st : QueryStatus) : List (QueryKey × QueryStatus) :=
  queries.map fun e => if e.1 = key then (e.1, st) else e

/-- The hook `useQuery` on a render: an enabled key without a cache entry
starts the query function.  The background refetch of an entry that is
already cached is left out. -/
def observe (apiKey : String) (s : App) : App :=
  if enabled s.debouncedSearchTerm then
    match s.status with
    | some _ => s
    | none =>
      match queryFnStart apiKey s.debouncedSearchTerm s.page with
      | .get url =>
        { s with queries := (s.queryKey, .loading 0) :: s.queries, requests := s.requests ++ [url] }
      | .done result => { s with queries := (s.queryKey, .success result) :: s.queries }
  else s

/-- The GET of the query started for `key` settles: the rest of the query
function runs (lines 38-44), whatever key is observed by then; a failure is
retried three times, the default of `useQuery`, before the query fails. -/
def settle (apiKey : String) (s : App) (key : QueryKey) (res : HttpResult) : App :=
  match s.queries.lookup key with
  | some (.loading n) =>
    let r := queryFnResume res
    let s1 : App :=
      { s with
        store := r.dispatched.foldl searchReducer s.store
        total := r.totalSet.getD s.total }
    match r.result with
    | .ok d => { s1 with queries := setStatus s.queries key (.success d) }
    | .error _ =>
      if n < 3 then
        match queryFnStart apiKey key.term key.page with
        | .get url =>
          { s1 with
            queries := setStatus s.queries key (.loading (n + 1))
            requests := s.requests ++ [url] }
        | .done result => { s1 with queries := setStatus s.queries key (.success result) }
      else { s1 with queries := setStatus s.queries key .error }
  | _ => s

/-- What can happen to a mounted `Search`. -/
inductive Event where
  | inputChange (value : String)
  | debounceElapsed
  | prevPageClick
  | nextPageClick
  | settled (key : QueryKey) (res : HttpResult)
  deriving DecidableEq, Repr

/-- One event: the handler, then the render with its `useQuery`.  A click on
a pager button needs the pager on screen. -/
def step (apiKey : String) (s : App) : Event → App
  | .inputChange value => observe apiKey (handleInputChange s value)
  | .debounceElapsed => observe apiKey { s with debouncedSearchTerm := s.searchTerm }
  | .prevPageClick =>
    if s.pagerShown then observe apiKey { s with page := handlePrevPageClick s.page } else s
  | .nextPageClick =>
    if s.pagerShown then observe apiKey { s with page := handleNextPageClick s.total s.page }
    else s
  | .settled key res => observe apiKey (settle apiKey s key res)

/-- A sequence of events. -/
def run (apiKey : String) (s : App) (events : List Event) : App :=
  events.foldl (step apiKey) s

/-! ## The debounce effect (lines 51-59), with time -/

/-- A pending timer of `setTimeout`: its identifier, the time it is due and
the value its callback passes to `setDebouncedSearchTerm`. -/
structure Timer where
  id : Nat
  deadline : Nat
  value : String
  deriving DecidableEq, Repr

/-- The search term, its debounced copy and the timers, on a clock.
`cleanup` is the timer the cleanup of the last effect run clears (`none`
once unmounted) and `emitted` lists the calls of `setDebouncedSearchTerm`
with their times. -/
structure Debouncer where
  now : Nat
  searchTerm : String
  debouncedSearchTerm : String
  timers : List Timer
  nextId : Nat
  cleanup : Option Nat
  emitted : List (Nat × String)
  deriving DecidableEq, Repr

namespace Debouncer

/-- The call `clearTimeout(id)`. -/
def clearTimeout (s : Debouncer) (id : Nat) : Debouncer :=
  { s with timers := s.timers.filter fun t => t.id ≠ id }

/-- Lines 52-58, one run of the effect: start an 800 timer that will emit
the `searchTerm` of this render, and keep the cleanup that clears it. -/
def runEffect (s : Debouncer) : Debouncer :=
  { s with
    timers := s.timers ++ [{ id := s.nextId, deadline := s.now + 800, value := s.searchTerm }]
    nextId := s.nextId + 1
    cleanup := some s.nextId }

/-- The component mounts at time `now`: the effect runs once. -/
def mount (now : Nat) : Debouncer :=
  runEffect
    { now := now, searchTerm := "", debouncedSearchTerm := "", timers := [], nextId := 0,
      cleanup := none, emitted := [] }

/-- The call `setSearchTerm(value)` of line 63.  The effect depends on
`[searchTerm]` (line 59): when the value differs, the previous cleanup runs
and the effect runs again; when it is the same, neither does. -/
def change (s : Debouncer) (value : String) : Debouncer :=
  match s.cleanup with
  | none => s
  | some id =>
    if value = s.searchTerm then s
    else runEffect { s.clearTimeout id with searchTerm := value }

/-- Time passes: every pending timer due by then fires, oldest first, and
its callback calls `setDebouncedSearchTerm` (line 53). -/
def advance (s : Debouncer) (dt : Nat) : Debouncer :=
  let due := s.timers.filter fun t => t.deadline ≤ s.now + dt
  { s with
    now := s.now + dt
    timers := s.timers.filter fun t => ¬ t.deadline ≤ s.now + dt
    debouncedSearchTerm := (due.getLast?.map Timer.value).getD s.debouncedSearchTerm
    emitted := s.emitted ++ due.map fun t => (t.deadline, t.value) }

/-- The component unmounts: the cleanup of the last effect run (lines
56-58) clears its timer. -/
def unmount (s : Debouncer) : Debouncer :=
  match s.cleanup with
  | none => s
  | some id => { s.clearTimeout id with cleanup := none }

/-- Input changes, each after the given delay from the event before it. -/
def runChanges (s : Debouncer) : List (Nat × String) → Debouncer
  | [] => s
  | (gap, value) :: cs => runChanges ((s.advance gap).change value) cs

/-- What holds of every reachable state: mounted, and no pending timer but
the one the cleanup will clear. -/
def Inv (s : Debouncer) : Prop :=
  ∃ id, s.cleanup = some id ∧ ∀ t ∈ s.timers, t.id = id

/-- A burst of input changes after the change to `prev`: each follows the
one before it by less than 800 and changes the value. -/
def Rapid : String → List (Nat × String) → Prop
  | _, [] => True
  | prev, (gap, value) :: cs => gap < 800 ∧ value ≠ prev ∧ Rapid value cs

/-- The value of the last change of a burst that started with `first`. -/
def lastValue : String → List (Nat × String) → String
  | first, [] => first
  | _, (_, value) :: cs => lastValue value cs

/-- A burst: the change to `first`, then the changes of `rest`. -/
def burst (s : Debouncer) (first : String) (rest : List (Nat × String)) : Debouncer :=
  (s.change first).runChanges rest

/-- The state right after an input change: mounted, with exactly one pending
timer, started now, that will emit the current search term. -/
def Fresh (s : Debouncer) : Prop :=
  ∃ id, s.cleanup = some id ∧ s.timers = [⟨id, s.now + 800, s.searchTerm⟩]

end Debouncer

/-! ## The pagination calculator of the specification -/

namespace PaginationSpec

/-- The specification's `totalPages = ceil(totalCount / pageSize)`, and `0`
for an unknown count (`none`). -/
def totalPages (pageSize : Nat) : Option Nat → Int
  | none => 0
  | some totalCount => ⌈(totalCount : ℚ) / (pageSize : ℚ)⌉

/-- The specification's `startIndex = (page - 1) * pageSize + 1`. -/
def startIndex (pageSize : Nat) (page : Int) : Int :=
  (page - 1) * pageSize + 1

/-- The specification's `endIndex = min(startIndex + pageSize - 1, totalCount)`. -/
def endIndex (pageSize : Nat) (page : Int) (totalCount : Nat) : Int :=
  min (startIndex pageSize page + pageSize - 1) totalCount

end PaginationSpec

/-- The count a value of `total` stands for: `null` (no response yet) and
`undefined` (a response without `totalResults`) are the unknown count, a
number is itself, a string is the count that is its numeric value. -/
def Denotes : Total → Option Nat → Prop
  | .null, count => count = none
  | .undefined, count => count = none
  | .num n, count => count = some n
  | .str s, count => ∃ c : Nat, count = some c ∧ (Total.str s).toNumber = .fin c

/-! ## Arithmetic lemmas -/

theorem ceilDiv10_eq_ceil (n : Int) : JSNum.ceilDiv10 n = ⌈(n : ℚ) / 10⌉ := by
  have h := Rat.floor_intCast_div_natCast (-n) 10
  have h2 : ⌈(n : ℚ) / 10⌉ = -⌊((-n : ℤ) : ℚ) / ((10 : ℕ) : ℚ)⌋ := by
    rw [← Int.ceil_neg]
    congr 1
    push_cast
    ring
  rw [h2, h]
  rfl

theorem toNumber_of_denotes {total : Total} {c : Nat} (h : Denotes total (some c)) :
    total.toNumber = .fin c := by
  cases total with
  | null => simp [Denotes] at h
  | undefined => simp [Denotes] at h
  | num n =>
    simp only [Denotes, Option.some.injEq] at h
    subst h
    rfl
  | str s =>
    obtain ⟨c', hc, hs⟩ := h
    simp only [Option.some.injEq] at hc
    subst hc
    exact hs

theorem denotes_numeric_strings :
    Denotes (.str "57") (some 57) ∧ Denotes (.str "1e2") (some 100) ∧
      Denotes (.str "+57") (some 57) ∧ Denotes (.str "57.0") (some 57) ∧
      Denotes (.str " 0x39 ") (some 57) :=
  ⟨⟨57, rfl, by decide⟩, ⟨100, rfl, by decide⟩, ⟨57, rfl, by decide⟩, ⟨57, rfl, by decide⟩,
    ⟨57, rfl, by decide⟩⟩

/-! ## Pagination theorems -/

/-- C1: for a total count `n ≥ 1` and a current page `p` with
`1 ≤ p ≤ totalPages`, the pager values `startIndex = (p - 1) * 10 + 1` and
`endIndex = min(startIndex + 9, total)` satisfy
`startIndex ≤ endIndex ≤ total`. -/
theorem pager_indices_within_total (total : Total) (n p : Int)
    (hn : total.toNumber = .fin n) (_h1 : 1 ≤ n) (_hp : 1 ≤ p)
    (hT : JSNum.le (.fin p) (totalPages total) = true) :
    ∃ s e : Int, startIndex (.fin p) = .fin s ∧ endIndex (.fin p) total = .fin e ∧
      s = (p - 1) * 10 + 1 ∧ e = min (s + 9) n ∧ s ≤ e ∧ e ≤ n := by
  refine ⟨(p - 1) * 10 + 1, min ((p - 1) * 10 + 1 + 9) n, rfl, ?_, rfl, rfl, ?_, ?_⟩
  · simp [endIndex, startIndex, hn, JSNum.sub, JSNum.mul, JSNum.add, JSReal.min, JSReal.ofNum]
  · simp only [totalPages, hn, JSReal.ceilTenth, JSNum.le, decide_eq_true_eq, JSNum.ceilDiv10] at hT
    omega
  · omega

theorem pager_indices_within_total_witness :
    ∃ s e : Int, startIndex (.fin 6) = .fin s ∧ endIndex (.fin 6) (.str "57") = .fin e ∧
      s = (6 - 1) * 10 + 1 ∧ e = min (s + 9) 57 ∧ s ≤ e ∧ e ≤ 57 :=
  pager_indices_within_total (.str "57") 57 6 (by decide) (by decide) (by decide) (by decide)

/-- C4, as stated, fails for the unknown total `undefined`: `totalPages` is
`NaN` there, not the `0` of the specification's calculator. -/
theorem totalPages_of_undefined_is_not_zero :
    Denotes .undefined none ∧ totalPages .undefined = .nan ∧
      totalPages .undefined ≠ .fin (PaginationSpec.totalPages 10 none) := by
  refine ⟨rfl, rfl, ?_⟩
  intro h
  cases h

/-- C4, amended: the pagination values of `Search` equal the
specification's calculator at page size 10 for every page and every total
that is a count (a number, or a string whose numeric value is a count) or
`null`: `totalPages = ceil(total / 10)` and `0` for `null`,
`startIndex = (page - 1) * 10 + 1`, `endIndex = min(startIndex + 9, total)`
with `null` read as `0`; for the total `undefined` both `totalPages` and
`endIndex` are `NaN`; and page 1 with total `"57"` gives 6, 1 and 10. -/
theorem pagination_refines_spec (page : Int) (total : Total) (count : Option Nat)
    (h : Denotes total count) :
    totalPages total =
      (if total = .undefined then .nan else .fin (PaginationSpec.totalPages 10 count)) ∧
    startIndex (.fin page) = .fin (PaginationSpec.startIndex 10 page) ∧
    endIndex (.fin page) total =
      (match count with
      | some c => .fin (PaginationSpec.endIndex 10 page c)
      | none =>
        if total = .undefined then .nan
        else .fin (min (PaginationSpec.startIndex 10 page + 10 - 1) 0)) ∧
    (totalPages (.str "57") = .fin 6 ∧ startIndex (.fin 1) = .fin 1 ∧
      endIndex (.fin 1) (.str "57") = .fin 10) := by
  refine ⟨?_, ?_, ?_, by decide, by decide, by decide⟩
  · cases count with
    | none =>
      cases total with
      | null => rfl
      | undefined => rfl
      | num n => simp [Denotes] at h
      | str s => simp [Denotes] at h
    | some c =>
      have hc := toNumber_of_denotes h
      have hu : total ≠ .undefined := by
        intro hu
        subst hu
        simp [Denotes] at h
      simp only [totalPages, hc, JSReal.ceilTenth, PaginationSpec.totalPages, hu, if_false]
      rw [ceilDiv10_eq_ceil]
      norm_num
  · simp [startIndex, PaginationSpec.startIndex, JSNum.sub, JSNum.mul, JSNum.add]
  · cases count with
    | none =>
      cases total with
      | null =>
        simp [endIndex, startIndex, Total.toNumber, JSNum.sub, JSNum.mul, JSNum.add, JSReal.min,
          JSReal.ofNum, PaginationSpec.startIndex]
        congr 1
        ring
      | undefined => rfl
      | num n => simp [Denotes] at h
      | str s => simp [Denotes] at h
    | some c =>
      have hc := toNumber_of_denotes h
      simp only [endIndex, startIndex, hc, JSNum.sub, JSNum.mul, JSNum.add, JSReal.min,
        JSReal.ofNum, PaginationSpec.endIndex, PaginationSpec.startIndex]
      congr 1
      push_cast
      congr 1
      ring

theorem pagination_refines_spec_witness :
    totalPages (.str "1e2") =
      (if Total.str "1e2" = .undefined then .nan
        else .fin (PaginationSpec.totalPages 10 (some 100))) ∧
    startIndex (.fin 10) = .fin (PaginationSpec.startIndex 10 10) ∧
    endIndex (.fin 10) (.str "1e2") =
      (match some 100 with
      | some c => .fin (PaginationSpec.endIndex 10 10 c)
      | none =>
        if Total.str "1e2" = .undefined then .nan
        else .fin (min (PaginationSpec.startIndex 10 10 + 10 - 1) 0)) ∧
    (totalPages (.str "57") = .fin 6 ∧ startIndex (.fin 1) = .fin 1 ∧
      endIndex (.fin 1) (.str "57") = .fin 10) :=
  pagination_refines_spec 10 (.str "1e2") (some 100) ⟨100, rfl, by decide⟩

/-- C5, as stated, fails at the current page `NaN`, which the component
reaches (a late no-match response clears the total while cached results and
the pager are on screen, and a click on next follows): there the prev-page
action yields `NaN`, which is not at least 1, and the next-page action
yields `NaN`, which is not at most the `totalPages` 6 of total `"57"`. -/
theorem page_clicks_at_nan_stay_nan :
    (run "k" (App.init ⟨"", .arr []⟩)
      [.inputChange "bat", .debounceElapsed,
       .settled ⟨.fin 1, "bat"⟩
        (.resolved (some ⟨.arr [⟨"Batman", "1989", "tt0096895", "N/A"⟩], .str "57"⟩)),
       .inputChange "batx", .debounceElapsed, .inputChange "bat", .debounceElapsed,
       .settled ⟨.fin 1, "batx"⟩ (.resolved (some ⟨.undefined, .undefined⟩)),
       .nextPageClick]).page = .nan ∧
    handlePrevPageClick .nan = .nan ∧
    JSNum.le (.fin 1) (handlePrevPageClick .nan) = false ∧
    totalPages (.str "57") = .fin 6 ∧
    handleNextPageClick (.str "57") .nan = .nan ∧
    JSNum.le (handleNextPageClick (.str "57") .nan) (totalPages (.str "57")) = false := by
  decide

/-- C5, amended: for every current page that is a number (an integer or
an infinity) and every total, the prev-page action yields a page that is at
least 1, and the next-page action yields a page that is at most the computed
`totalPages = ceil(total / 10)` when that is a number; when the current page
is `NaN` both actions yield `NaN`, and when `totalPages` is `NaN` the
next-page action yields `NaN`. -/
theorem page_clicks_clamped (page : JSNum) (total : Total) :
    (page = .nan ∧ handlePrevPageClick page = .nan ∨
      page ≠ .nan ∧ JSNum.le (.fin 1) (handlePrevPageClick page) = true) ∧
    ((page = .nan ∨ totalPages total = .nan) ∧ handleNextPageClick total page = .nan ∨
      page ≠ .nan ∧ totalPages total ≠ .nan ∧
        JSNum.le (handleNextPageClick total page) (totalPages total) = true) := by
  constructor
  · cases page with
    | nan => exact Or.inl ⟨rfl, rfl⟩
    | fin p =>
      right
      simp [handlePrevPageClick, JSNum.sub, JSNum.max, JSNum.le]
    | inf s =>
      right
      cases s <;> simp [handlePrevPageClick, JSNum.sub, JSNum.max, JSNum.le]
  · unfold handleNextPageClick
    cases page with
    | nan =>
      left
      cases totalPages total <;> simp [JSNum.add, JSNum.min]
    | fin p =>
      cases totalPages total with
      | nan => left; simp [JSNum.add, JSNum.min]
      | fin T => right; simp [JSNum.add, JSNum.min, JSNum.le]
      | inf t => right; cases t <;> simp [JSNum.add, JSNum.min, JSNum.le]
    | inf s =>
      cases totalPages total with
      | nan => left; simp [JSNum.add, JSNum.min]
      | fin T => right; cases s <;> simp [JSNum.add, JSNum.min, JSNum.le]
      | inf t => right; cases s <;> cases t <;> simp [JSNum.add, JSNum.min, JSNum.le]

/-! ## The query function -/

theorem enabled_eq_false_iff (term : String) : enabled term = false ↔ jsTrim term = "" := by
  simp [enabled]

/-- C6: for a debounced term that is empty once trimmed, whatever the page,
the query is disabled, the render with its `useQuery` issues no request, and
the query function returns the empty result `{}` without a GET; for a term
that is not empty once trimmed the query is enabled and a run of the function
issues exactly one GET, to the URL of line 33. -/
theorem blank_term_issues_no_request (apiKey term : String) (page : JSNum)
    (http : String → HttpResult) :
    (jsTrim term = "" →
      enabled term = false ∧
      (∀ s : App, s.debouncedSearchTerm = term → (observe apiKey s).requests = s.requests) ∧
      queryFnStart apiKey term page = .done (.obj []) ∧
      queryFn apiKey term page http =
        { requests := [], dispatched := [], totalSet := none, result := .ok (.obj []) }) ∧
    (jsTrim term ≠ "" →
      enabled term = true ∧
      queryFnStart apiKey term page = .get (apiUrl apiKey term page) ∧
      (queryFn apiKey term page http).requests = [apiUrl apiKey term page] ∧
      (queryFn apiKey term page http).requests.length = 1) := by
  constructor
  · intro h
    refine ⟨by simp [enabled, h], fun s hs => ?_, by simp [queryFnStart, h],
      by simp [queryFn, queryFnStart, h]⟩
    simp [observe, enabled, hs, h]
  · intro h
    simp [enabled, queryFn, queryFnStart, h]

theorem blank_term_issues_no_request_witness :
    (enabled " \t" = false ∧
      (∀ s : App, s.debouncedSearchTerm = " \t" → (observe "k" s).requests = s.requests) ∧
      queryFnStart "k" " \t" (.fin 1) = .done (.obj []) ∧
      queryFn "k" " \t" (.fin 1) (fun _ => .rejected) =
        { requests := [], dispatched := [], totalSet := none, result := .ok (.obj []) }) ∧
    (enabled "bat" = true ∧
      queryFnStart "k" "bat" (.fin 1) = .get (apiUrl "k" "bat" (.fin 1)) ∧
      (queryFn "k" "bat" (.fin 1) (fun _ => .rejected)).requests = [apiUrl "k" "bat" (.fin 1)] ∧
      (queryFn "k" "bat" (.fin 1) (fun _ => .rejected)).requests.length = 1) :=
  ⟨(blank_term_issues_no_request "k" " \t" (.fin 1) (fun _ => .rejected)).1 (by decide),
   (blank_term_issues_no_request "k" "bat" (.fin 1) (fun _ => .rejected)).2 (by decide)⟩

/-! ## Render -/

theorem cards_length (i : Nat) (items : List Movie) : (cards i items).length = items.length := by
  induction items generalizing i with
  | nil => rfl
  | cons d ds ih => simp [cards, ih]

theorem cards_getElem? (i k : Nat) (items : List Movie) :
    (cards i items)[k]? = (items[k]?).map (Tile.card (i + k)) := by
  induction items generalizing i k with
  | nil => simp [cards]
  | cons d ds ih =>
    cases k with
    | zero => simp [cards]
    | succ k =>
      have e : i + 1 + k = i + (k + 1) := by omega
      simp only [cards, List.getElem?_cons_succ, ih, e]

theorem render_absent_or_empty (isLoading : Bool) (data : JSVal) (searchTerm : String)
    (page : JSNum) (total : Total)
    (h : data = .undefined ∨ data = .null ∨ data = .arr [] ∨ data = .obj [] ∨ data = .str "") :
    render false isLoading data searchTerm page total =
      .ok (.search searchTerm
        (.placeholders (placeholderTiles 9) (if isLoading then .spinner else .noMoviesFound))) := by
  rcases h with h | h | h | h | h <;> subst h <;> rfl

theorem render_string_throws (isLoading : Bool) (c : Char) (cs : List Char) (searchTerm : String)
    (page : JSNum) (total : Total) :
    render false isLoading (.str ⟨c :: cs⟩) searchTerm page total = .error .typeError := by
  have h : 0 < JSVal.utf16Length (c :: cs) := by
    simp only [JSVal.utf16Length]
    split <;> omega
  simp [render, JSVal.truthy, JSVal.keysLength, h]

theorem render_object_throws (isLoading : Bool) (k : String) (ks : List String)
    (searchTerm : String) (page : JSNum) (total : Total) :
    render false isLoading (.obj (k :: ks)) searchTerm page total = .error .typeError := by
  simp [render, JSVal.truthy, JSVal.keysLength]

/-- C8: the shape of the rendered view follows the fetch state.  With
`isError` the output is the error message alone.  Otherwise, with at least one
item in `data`, it is the input, one tile per item in the order of `data`
(tile `k` holds item `k`), and the pager.  Otherwise (`data` absent, the empty
result `{}`, or an empty list, whatever the total) it is the input and nine
placeholder tiles under an overlay, the spinner when `isLoading` and the
no-movies-found message when not. -/
theorem render_by_fetch_state (isLoading : Bool) (searchTerm : String) (page : JSNum)
    (total : Total) :
    (∀ data, render true isLoading data searchTerm page total = .ok .errorMessage) ∧
    (∀ item items,
      render false isLoading (.arr (item :: items)) searchTerm page total =
        .ok (.search searchTerm (.results (cards 0 (item :: items)) (renderPager page total))) ∧
      (cards 0 (item :: items)).length = (item :: items).length ∧
      ∀ k, (cards 0 (item :: items))[k]? = ((item :: items)[k]?).map (Tile.card k)) ∧
    (render false isLoading .undefined searchTerm page total =
        .ok (.search searchTerm (.placeholders (placeholderTiles 9)
          (if isLoading then .spinner else .noMoviesFound))) ∧
      render false isLoading (.obj []) searchTerm page total =
        .ok (.search searchTerm (.placeholders (placeholderTiles 9)
          (if isLoading then .spinner else .noMoviesFound))) ∧
      render false isLoading (.arr []) searchTerm page total =
        .ok (.search searchTerm (.placeholders (placeholderTiles 9)
          (if isLoading then .spinner else .noMoviesFound)))) ∧
    placeholderTiles 9 = [.placeholder 0, .placeholder 1, .placeholder 2, .placeholder 3,
      .placeholder 4, .placeholder 5, .placeholder 6, .placeholder 7, .placeholder 8] := by
  refine ⟨fun data => rfl, fun item items => ⟨?_, cards_length _ _, fun k => ?_⟩,
    ⟨rfl, rfl, rfl⟩, by decide⟩
  · simp [render, JSVal.truthy, JSVal.keysLength]
  · have h := cards_getElem? 0 k (item :: items)
    simpa using h

/-- C7, at the failing inputs: a resolved response whose `Search` is the
string `"N/A"`, or an object with a key, reaches `data.map` and the render
throws a `TypeError`, where the claim asks for the no-results placeholder. -/
theorem malformed_search_value_throws :
    (run "k" (App.init ⟨"", .arr []⟩)
      [.inputChange "bat", .debounceElapsed,
       .settled ⟨.fin 1, "bat"⟩ (.resolved (some ⟨.str "N/A", .undefined⟩))]).view
      = .error .typeError ∧
    (run "k" (App.init ⟨"", .arr []⟩)
      [.inputChange "bat", .debounceElapsed,
       .settled ⟨.fin 1, "bat"⟩ (.resolved (some ⟨.obj ["Error"], .undefined⟩))]).view
      = .error .typeError ∧
    (run "k" (App.init ⟨"", .arr []⟩)
      [.inputChange "bat", .debounceElapsed,
       .settled ⟨.fin 1, "bat"⟩ (.resolved (some ⟨.undefined, .undefined⟩))]).view
      = .ok (.search "bat" (.placeholders (placeholderTiles 9) .noMoviesFound)) := by
  decide

/-! ## The debounce effect -/

namespace Debouncer

theorem inv_mount (now : Nat) : (mount now).Inv :=
  ⟨0, rfl, by simp [mount, runEffect]⟩

theorem fresh_change (s : Debouncer) (v : String) (hs : s.Inv) (hv : v ≠ s.searchTerm) :
    (s.change v).Fresh ∧ (s.change v).emitted = s.emitted ∧ (s.change v).now = s.now ∧
      (s.change v).searchTerm = v := by
  obtain ⟨id, hc, ht⟩ := hs
  have hf : (s.timers.filter fun t => decide (t.id ≠ id)) = [] := by
    rw [List.filter_eq_nil_iff]
    intro t hmem
    simp [ht t hmem]
  refine ⟨⟨s.nextId, ?_, ?_⟩, ?_, ?_, ?_⟩ <;>
    simp only [change, hc, hv, runEffect, clearTimeout, hf, if_false, List.nil_append]

theorem advance_fresh_lt (s : Debouncer) (hs : s.Fresh) (dt : Nat) (h : dt < 800) :
    (s.advance dt).Inv ∧ (s.advance dt).emitted = s.emitted ∧
      (s.advance dt).searchTerm = s.searchTerm ∧ (s.advance dt).now = s.now + dt ∧
      (s.advance dt).timers = s.timers ∧ (s.advance dt).cleanup = s.cleanup := by
  obtain ⟨id, hc, ht⟩ := hs
  refine ⟨⟨id, ?_, ?_⟩, ?_, ?_, ?_, ?_, ?_⟩ <;> simp [advance, hc, ht, h]

theorem advance_fresh_ge (s : Debouncer) (hs : s.Fresh) (dt : Nat) (h : 800 ≤ dt) :
    (s.advance dt).emitted = s.emitted ++ [(s.now + 800, s.searchTerm)] ∧
      (s.advance dt).debouncedSearchTerm = s.searchTerm ∧ (s.advance dt).timers = [] := by
  obtain ⟨id, hc, ht⟩ := hs
  have hn : s.now + 800 ≤ s.now + dt := by omega
  refine ⟨?_, ?_, ?_⟩ <;> simp [advance, ht, hn]

theorem advance_no_timers (s : Debouncer) (ht : s.timers = []) (dt : Nat) :
    (s.advance dt).emitted = s.emitted ∧ (s.advance dt).timers = [] := by
  simp [advance, ht]

theorem fresh_runChanges (s : Debouncer) (rest : List (Nat × String)) (hs : s.Fresh)
    (hr : Rapid s.searchTerm rest) :
    (s.runChanges rest).Fresh ∧ (s.runChanges rest).emitted = s.emitted ∧
      (s.runChanges rest).searchTerm = lastValue s.searchTerm rest ∧
      (s.runChanges rest).now = s.now + (rest.map Prod.fst).sum := by
  induction rest generalizing s with
  | nil => exact ⟨hs, rfl, rfl, by simp [runChanges]⟩
  | cons c cs ih =>
    obtain ⟨gap, v⟩ := c
    obtain ⟨hgap, hv, hcs⟩ := hr
    obtain ⟨hinv, hem, hst, hnow, -, -⟩ := advance_fresh_lt s hs gap hgap
    obtain ⟨hf, hem2, hnow2, hst2⟩ := fresh_change (s.advance gap) v hinv (by rw [hst]; exact hv)
    obtain ⟨h1, h2, h3, h4⟩ := ih ((s.advance gap).change v) hf (by rw [hst2]; exact hcs)
    refine ⟨h1, ?_, ?_, ?_⟩
    · simp only [runChanges]
      rw [h2, hem2, hem]
    · simp only [runChanges, lastValue]
      rw [h3, hst2]
    · simp only [runChanges, List.map_cons, List.sum_cons]
      rw [h4, hnow2, hnow]
      omega

end Debouncer

/-- C9: from any mounted state, a burst of input changes, each following
the one before it by less than 800 time units, emits nothing while it lasts
and nothing before 800 units of quiet; after that the debounced term has been
set exactly once, at the time of the last change plus 800, to the value of
the last change, and no timer is left: the earlier timers never fire.  If
the component is torn down during the quiet period, nothing is ever emitted. -/
theorem debounce_emits_once (s : Debouncer) (first : String) (rest : List (Nat × String))
    (hs : s.Inv) (hfirst : first ≠ s.searchTerm) (hrest : Debouncer.Rapid first rest) :
    (s.burst first rest).emitted = s.emitted ∧
    (s.burst first rest).now = s.now + (rest.map Prod.fst).sum ∧
    (∀ w, w < 800 →
      ((s.burst first rest).advance w).emitted = s.emitted ∧
      ∀ w2, (((s.burst first rest).advance w).unmount.advance w2).emitted = s.emitted) ∧
    (∀ w, 800 ≤ w →
      ((s.burst first rest).advance w).emitted =
        s.emitted ++ [((s.burst first rest).now + 800, Debouncer.lastValue first rest)] ∧
      ((s.burst first rest).advance w).debouncedSearchTerm = Debouncer.lastValue first rest ∧
      ((s.burst first rest).advance w).timers = []) := by
  obtain ⟨hf, hem, hnow, hst⟩ := Debouncer.fresh_change s first hs hfirst
  obtain ⟨h1, h2, h3, h4⟩ :=
    Debouncer.fresh_runChanges (s.change first) rest hf (by rw [hst]; exact hrest)
  rw [hst] at h3
  refine ⟨?_, ?_, ?_, ?_⟩
  · exact h2.trans hem
  · rw [Debouncer.burst, h4, hnow]
  · intro w hw
    obtain ⟨hinv, e1, -, -, e4, e5⟩ := Debouncer.advance_fresh_lt _ h1 w hw
    refine ⟨by rw [Debouncer.burst, e1, h2, hem], fun w2 => ?_⟩
    obtain ⟨id, hc, ht⟩ := hinv
    have hu : (((s.change first).runChanges rest).advance w).unmount.timers = [] := by
      simp only [Debouncer.unmount, hc, Debouncer.clearTimeout]
      rw [List.filter_eq_nil_iff]
      intro t hmem
      simp [ht t hmem]
    have hue : (((s.change first).runChanges rest).advance w).unmount.emitted =
        (((s.change first).runChanges rest).advance w).emitted := by
      simp [Debouncer.unmount, hc, Debouncer.clearTimeout]
    rw [Debouncer.burst, (Debouncer.advance_no_timers _ hu w2).1, hue, e1, h2, hem]
  · intro w hw
    obtain ⟨e1, e2, e3⟩ := Debouncer.advance_fresh_ge _ h1 w hw
    refine ⟨?_, ?_, ?_⟩
    · rw [Debouncer.burst, e1, h2, hem, h3]
    · rw [Debouncer.burst, e2, h3]
    · rw [Debouncer.burst, e3]

theorem debounce_emits_once_witness :
    ((Debouncer.mount 0).burst "b" [(200, "ba"), (799, "bat")]).emitted = (Debouncer.mount 0).emitted ∧
    (((Debouncer.mount 0).burst "b" [(200, "ba"), (799, "bat")]).advance 800).emitted =
      (Debouncer.mount 0).emitted ++ [(999 + 800, "bat")] :=
  have h := debounce_emits_once (Debouncer.mount 0) "b" [(200, "ba"), (799, "bat")]
    (Debouncer.inv_mount 0) (by decide) ⟨by decide, by decide, by decide, by decide, trivial⟩
  ⟨h.1, (h.2.2.2 800 (le_refl 800)).1⟩

/-! ## The component state -/

theorem observe_fields (apiKey : String) (s : App) :
    (observe apiKey s).searchTerm = s.searchTerm ∧ (observe apiKey s).store = s.store ∧
      (observe apiKey s).page = s.page ∧ (observe apiKey s).total = s.total := by
  unfold observe
  split
  · split
    · exact ⟨rfl, rfl, rfl, rfl⟩
    · split <;> exact ⟨rfl, rfl, rfl, rfl⟩
  · exact ⟨rfl, rfl, rfl, rfl⟩

theorem run_append (apiKey : String) (s : App) (es fs : List Event) :
    run apiKey s (es ++ fs) = run apiKey (run apiKey s es) fs := by
  simp [run, List.foldl_append]

theorem searchTerm_after_changes (apiKey : String) (s : App) (vs : List String) :
    (run apiKey s (vs.map Event.inputChange)).searchTerm = vs.getLast?.getD s.searchTerm := by
  induction vs using List.reverseRecOn with
  | nil => rfl
  | append_singleton vs v _ =>
    rw [List.map_append, run_append]
    simp [run, step, (observe_fields apiKey _).1, handleInputChange]

theorem settle_resolved_overwrites (apiKey : String) (s : App) (key : QueryKey) (n : Nat)
    (body : ResponseBody) (h : s.queries.lookup key = some (.loading n)) :
    (settle apiKey s key (.resolved (some body))).total = body.totalResults ∧
      (settle apiKey s key (.resolved (some body))).store.movies = body.Search := by
  simp [settle, h, queryFnResume, searchReducer]

/-- C10: `handleInputChange` dispatches `setMovieSearch` with the search
term of before the change, and sets the local search term to the new value,
the page to 1 and the total to `null`; so after any sequence of input changes
the term in the shared store is the search term of before the last change. -/
theorem input_change_dispatches_previous_term (apiKey : String) (s : App) (vs : List String)
    (v : String) :
    inputChangeDispatch s = [.setMovieSearch s.searchTerm] ∧
    (handleInputChange s v).searchTerm = v ∧
    (handleInputChange s v).store.movieSearch = s.searchTerm ∧
    (handleInputChange s v).page = .fin 1 ∧
    (handleInputChange s v).total = .null ∧
    (run apiKey s ((vs ++ [v]).map Event.inputChange)).searchTerm = v ∧
    (run apiKey s ((vs ++ [v]).map Event.inputChange)).store.movieSearch =
      (run apiKey s (vs.map Event.inputChange)).searchTerm ∧
    (run apiKey s (vs.map Event.inputChange)).searchTerm = vs.getLast?.getD s.searchTerm := by
  refine ⟨rfl, rfl, rfl, rfl, rfl, ?_, ?_, searchTerm_after_changes apiKey s vs⟩
  · rw [searchTerm_after_changes]
    simp
  · rw [List.map_append, run_append]
    simp [run, step, (observe_fields apiKey _).2.1, handleInputChange, inputChangeDispatch,
      searchReducer]

/-- C2, at the failing input: with results on screen, an input change sets
`total` to `null` while the pager stays on screen; a click on next then sets
the page to `Math.min(2, 0) = 0`. -/
theorem next_click_reaches_page_zero :
    (run "k" (App.init ⟨"", .arr []⟩)
      [.inputChange "bat", .debounceElapsed,
       .settled ⟨.fin 1, "bat"⟩
        (.resolved (some ⟨.arr [⟨"Batman", "1989", "tt0096895", "N/A"⟩], .str "57"⟩)),
       .inputChange "batm"]).pagerShown = true ∧
    (run "k" (App.init ⟨"", .arr []⟩)
      [.inputChange "bat", .debounceElapsed,
       .settled ⟨.fin 1, "bat"⟩
        (.resolved (some ⟨.arr [⟨"Batman", "1989", "tt0096895", "N/A"⟩], .str "57"⟩)),
       .inputChange "batm"]).total = .null ∧
    (run "k" (App.init ⟨"", .arr []⟩)
      [.inputChange "bat", .debounceElapsed,
       .settled ⟨.fin 1, "bat"⟩
        (.resolved (some ⟨.arr [⟨"Batman", "1989", "tt0096895", "N/A"⟩], .str "57"⟩)),
       .inputChange "batm", .nextPageClick]).page = .fin 0 := by
  decide

/-- C3, at the failing input: query A for `("bat", 1)` is in flight when
query B for `("batman", 1)` is issued and resolves with total `"5"`; the late
response of A then overwrites the displayed total with `"300"` and the stored
movie list with A's list, while the tiles on screen are still B's. -/
theorem stale_response_overwrites_state :
    (run "k" (App.init ⟨"", .arr []⟩)
      [.inputChange "bat", .debounceElapsed, .inputChange "batman", .debounceElapsed,
       .settled ⟨.fin 1, "batman"⟩
        (.resolved (some ⟨.arr [⟨"Batman Begins", "2005", "tt0372784", "N/A"⟩], .str "5"⟩))]).total
      = .str "5" ∧
    (run "k" (App.init ⟨"", .arr []⟩)
      [.inputChange "bat", .debounceElapsed, .inputChange "batman", .debounceElapsed,
       .settled ⟨.fin 1, "batman"⟩
        (.resolved (some ⟨.arr [⟨"Batman Begins", "2005", "tt0372784", "N/A"⟩], .str "5"⟩))]).store.movies
      = .arr [⟨"Batman Begins", "2005", "tt0372784", "N/A"⟩] ∧
    (run "k" (App.init ⟨"", .arr []⟩)
      [.inputChange "bat", .debounceElapsed, .inputChange "batman", .debounceElapsed,
       .settled ⟨.fin 1, "batman"⟩
        (.resolved (some ⟨.arr [⟨"Batman Begins", "2005", "tt0372784", "N/A"⟩], .str "5"⟩)),
       .settled ⟨.fin 1, "bat"⟩
        (.resolved (some ⟨.arr [⟨"Batman", "1989", "tt0096895", "N/A"⟩], .str "300"⟩))]) =
      { searchTerm := "batman"
        debouncedSearchTerm := "batman"
        page := .fin 1
        total := .str "300"
        store := ⟨"bat", .arr [⟨"Batman", "1989", "tt0096895", "N/A"⟩]⟩
        queries :=
          [(⟨.fin 1, "batman"⟩, .success (.arr [⟨"Batman Begins", "2005", "tt0372784", "N/A"⟩])),
           (⟨.fin 1, "bat"⟩, .success (.arr [⟨"Batman", "1989", "tt0096895", "N/A"⟩]))]
        requests :=
          ["https://www.omdbapi.com/?apikey=k&s=bat&page=1",
           "https://www.omdbapi.com/?apikey=k&s=batman&page=1"] } := by
  decide

end Search
